import Mathlib

/-!
# Verification of the epubCli reading core (`src/epub_reader.py`)

Shallow embedding of the `Chapter` / `EpubReader` classes: pagination,
line wrapping, chapter extraction, TOC construction, navigation state and
text search.  Python strings are modelled as Lean `String` (a wrapper
around `List Char`); all string operations used by the code are
re-implemented structurally over `List Char` so that every definition
reduces in the kernel.  Python `int` indices that may be negative are
modelled as `Int`; sizes and in-range indices as `Nat`.
-/

set_option autoImplicit false

namespace EpubCli

/-- ASCII model of Python's whitespace test used by `str.split()` and
`str.strip()` (space, tab, newline, carriage return, vertical tab,
form feed). -/
def pyIsSpace (c : Char) : Bool :=
  c = ' ' || c = '\t' || c = '\n' || c = '\r' || c = '\x0b' || c = '\x0c'

/-- `l.split('\n')` on the character list: split at every newline,
keeping empty fields (Python `str.split` with an explicit separator). -/
def splitNlList : List Char → List (List Char)
  | [] => [[]]
  | c :: cs =>
    if c = '\n' then [] :: splitNlList cs
    else
      match splitNlList cs with
      | [] => [[c]]
      | g :: gs => (c :: g) :: gs

/-- `content.split('\n')` at the `String` level. -/
def pySplitNl (s : String) : List String :=
  (splitNlList s.data).map String.mk

/-- Helper for `pySplitWs`: accumulate the current word (reversed). -/
def pySplitWsAux : List Char → List Char → List String
  | [], acc => if acc = [] then [] else [String.mk acc.reverse]
  | c :: cs, acc =>
    if pyIsSpace c then
      if acc = [] then pySplitWsAux cs []
      else String.mk acc.reverse :: pySplitWsAux cs []
    else pySplitWsAux cs (c :: acc)

/-- `line.split()` (no argument): split on runs of whitespace, dropping
empty fields. -/
def pySplitWs (s : String) : List String :=
  pySplitWsAux s.data []

/-- `'\n'.join(lines)`. -/
def joinNl : List String → String
  | [] => ""
  | [l] => l
  | l :: ls => l ++ "\n" ++ joinNl ls

/-- `str.strip()` on the character list: drop leading and trailing
whitespace. -/
def pyStripList (l : List Char) : List Char :=
  ((l.dropWhile pyIsSpace).reverse.dropWhile pyIsSpace).reverse

/-- `s.strip()` at the `String` level. -/
def pyStrip (s : String) : String :=
  String.mk (pyStripList s.data)

/-- ASCII model of `str.lower()` on one character. -/
def asciiLower (c : Char) : Char :=
  if 'A' ≤ c ∧ c ≤ 'Z' then Char.ofNat (c.toNat + 32) else c

/-- ASCII model of `s.lower()`. -/
def pyLower (s : String) : String :=
  String.mk (s.data.map asciiLower)

/-- `q` is a prefix of `s` (character lists). -/
def listPrefixOf : List Char → List Char → Bool
  | [], _ => true
  | _ :: _, [] => false
  | a :: as, b :: bs => a = b && listPrefixOf as bs

/-- Python's `q in s` substring containment on character lists: `q` is a
contiguous run of `s` (the empty list is contained in everything). -/
def listContains (q : List Char) : List Char → Bool
  | [] => listPrefixOf q []
  | c :: cs => listPrefixOf q (c :: cs) || listContains q cs

/-- Python's `q in s` on strings. -/
def pyIn (q s : String) : Bool :=
  listContains q.data s.data

/-- Python's `s.endswith(suffix)`. -/
def pyEndsWith (s suffix : String) : Bool :=
  listPrefixOf suffix.data.reverse s.data.reverse

/-!
## `Chapter._wrap_line` (epub_reader.py lines 52-81)
-/

/-- The `while len(word) > width` hard-slicing loop inside `_wrap_line`:
repeatedly emit `word[:width]` and continue with `word[width:]`; the
remainder (length ≤ width) is returned separately.  The loop runs at most
`len(word)` times when `width ≥ 1`, so the fuel argument (instantiated
with the word's length) makes it structural; for `width = 0` the Python
loop does not terminate, so that case is outside the model (all claims
assume `width ≥ 1`). -/
def hardSliceFuel : Nat → Nat → List Char → List (List Char) × List Char
  | 0, _, w => ([], w)
  | fuel + 1, width, w =>
    if width < w.length ∧ 0 < width then
      let r := hardSliceFuel fuel width (w.drop width)
      (w.take width :: r.1, r.2)
    else ([], w)

/-- Hard-slice a word into `width`-sized chunks plus a remainder. -/
def hardSlice (width : Nat) (w : List Char) : List (List Char) × List Char :=
  hardSliceFuel w.length width w

/-- One iteration of the `for word in words` loop of `_wrap_line`: state is
`(wrapped_lines, current_line)`. -/
def wrapStep (width : Nat) (st : List String × String) (word : String) :
    List String × String :=
  let wrapped := st.1
  let current := st.2
  if current.length + 1 + word.length ≤ width then
    if current = "" then (wrapped, word)
    else (wrapped, current ++ " " ++ word)
  else
    if current = "" then
      let r := hardSlice width word.data
      (wrapped ++ r.1.map String.mk, String.mk r.2)
    else (wrapped ++ [current], word)

/-- `Chapter._wrap_line`: a line that already fits is returned verbatim;
otherwise the line is split into whitespace-separated words and greedily
re-wrapped, hard-slicing a too-long word only when the current output line
is empty. -/
def wrapLine (line : String) (width : Nat) : List String :=
  if line.length ≤ width then [line]
  else
    let words := pySplitWs line
    let st := words.foldl (wrapStep width) ([], "")
    let wrapped := if st.2 = "" then st.1 else st.1 ++ [st.2]
    if wrapped = [] then [""] else wrapped

/-!
## `Chapter.paginate` (epub_reader.py lines 23-50)
-/

/-- One iteration of the inner `for wrapped_line in wrapped_lines` loop of
`paginate`: state is `(pages, current_page_lines, current_line_count)`. -/
def pageStep (height : Nat) (st : List String × List String × Nat)
    (wline : String) : List String × List String × Nat :=
  let pages := st.1
  let cur := st.2.1
  let count := st.2.2
  if height - 2 ≤ count then
    (pages ++ [joinNl cur], [wline], 1)
  else
    (pages, cur ++ [wline], count + 1)

/-- `Chapter.paginate`: split content on newlines, wrap each logical line,
buffer wrapped lines into pages of `height - 2` lines, flush the last
buffer, and fall back to a single empty page if nothing was produced. -/
def paginate (content : String) (width height : Nat) : List String :=
  let lines := pySplitNl content
  let wrapped := (lines.map (fun l => wrapLine l width)).flatten
  let st := wrapped.foldl (pageStep height) ([], [], 0)
  let pages := if st.2.1 = [] then st.1 else st.1 ++ [joinNl st.2.1]
  if pages = [] then [""] else pages

/-!
## Reference paginator, following the spec's words (§4.4)

For the refinement claim the wrapping algorithm is written a second time,
directly from the spec's §4.4 step 2: no verbatim short-circuit for lines
that already fit, and a word longer than `width` is always hard-sliced into
`width`-sized chunks, each emitted as an output line.  Steps 1 and 3-5
(newline split, page buffering, final flush, empty fallback) are shared
with `paginate`.
-/

/-- Slice a word into `width`-sized chunks (final chunk possibly shorter),
as the spec's §4.4 step 2 prescribes for an over-long word.  Fuel is
instantiated with the word's length; the spec assumes `width ≥ 1`. -/
def specChunksFuel : Nat → Nat → List Char → List (List Char)
  | 0, _, w => if w = [] then [] else [w]
  | fuel + 1, width, w =>
    if w.length ≤ width then (if w = [] then [] else [w])
    else w.take width :: specChunksFuel fuel width (w.drop width)

/-- Spec-mandated hard-slicing of a word into `width`-sized chunks. -/
def specChunks (width : Nat) (w : List Char) : List (List Char) :=
  specChunksFuel w.length width w

/-- One word of the spec's greedy wrap: accumulate while
`len(current) + 1 + len(word) <= width`; a word longer than `width` flushes
the current line and is hard-sliced, every chunk emitted. -/
def specWrapStep (width : Nat) (st : List String × String) (word : String) :
    List String × String :=
  let out := st.1
  let current := st.2
  if current.length + 1 + word.length ≤ width then
    (out, if current = "" then word else current ++ " " ++ word)
  else if width < word.length then
    ((if current = "" then out else out ++ [current]) ++
      (specChunks width word.data).map String.mk, "")
  else
    ((if current = "" then out else out ++ [current]), word)

/-- The spec's §4.4 step 2 word-wrap of one logical line. -/
def specWrapLine (line : String) (width : Nat) : List String :=
  let st := (pySplitWs line).foldl (specWrapStep width) ([], "")
  if st.2 = "" then st.1 else st.1 ++ [st.2]

/-- The spec's §4.4 reference pagination: steps 1 and 3-5 as in
`paginate`, step 2 by `specWrapLine`. -/
def specPaginate (content : String) (width height : Nat) : List String :=
  let wrapped := ((pySplitNl content).map (fun l => specWrapLine l width)).flatten
  let st := wrapped.foldl (pageStep height) ([], [], 0)
  let pages := if st.2.1 = [] then st.1 else st.1 ++ [joinNl st.2.1]
  if pages = [] then [""] else pages

/-!
## Data model: `Chapter` and `EpubReader` state
-/

/-- The `Chapter` class (epub_reader.py lines 13-21): title, raw text
content, stable id, pages (empty until `paginate`), current page index. -/
structure Chapter where
  title : String
  content : String
  chapter_id : String
  pages : List String
  current_page : Nat
deriving DecidableEq

/-- `Chapter.__init__`: fresh chapter with no pages, at page 0. -/
def mkChapter (title content chapter_id : String) : Chapter :=
  ⟨title, content, chapter_id, [], 0⟩

/-- `Chapter.paginate` as a state update: replaces `pages` wholesale with
the freshly computed page list; nothing else changes. -/
def paginateChapter (c : Chapter) (width height : Nat) : Chapter :=
  { c with pages := paginate c.content width height }

/-- `Chapter.goto_page` (lines 103-108): bounds-checked jump, returns
whether it succeeded.  The argument is `Int` since Python callers may pass
negative numbers. -/
def gotoPage (c : Chapter) (p : Int) : Bool × Chapter :=
  if 0 ≤ p ∧ p < (c.pages.length : Int) then
    (true, { c with current_page := p.toNat })
  else (false, c)

/-- Mutable state of an `EpubReader` relevant to navigation: the chapter
list and the current chapter index. -/
structure ReaderState where
  chapters : List Chapter
  current_chapter : Nat
deriving DecidableEq

/-- Replace the element at one position of a list (Python mutation of
`self.chapters[idx]` through an object reference). -/
def updateAt : List Chapter → Nat → (Chapter → Chapter) → List Chapter
  | [], _, _ => []
  | c :: cs, 0, f => f c :: cs
  | c :: cs, n + 1, f => c :: updateAt cs n f

/-- `EpubReader.get_current_chapter` (lines 315-319): the chapter at the
current index, or none when out of range. -/
def getCurrentChapter (r : ReaderState) : Option Chapter :=
  r.chapters.get? r.current_chapter

/-- `EpubReader.goto_chapter` (lines 335-344): bounds-checked jump that
sets the current chapter and resets the target chapter's page to 0;
out-of-range indices leave the state unchanged and report failure. -/
def gotoChapter (r : ReaderState) (i : Int) : Bool × ReaderState :=
  if 0 ≤ i ∧ i < (r.chapters.length : Int) then
    let idx := i.toNat
    let r1 := { r with current_chapter := idx }
    match getCurrentChapter r1 with
    | some _ =>
        (true, { r1 with
                  chapters := updateAt r1.chapters idx
                    (fun c => { c with current_page := 0 }) })
    | none => (true, r1)
  else (false, r)

/-- `EpubReader.set_reading_position` (lines 374-382): sets the chapter
when in range (without resetting its page), then delegates the page jump
to `Chapter.goto_page`; returns that check's result. -/
def setReadingPosition (r : ReaderState) (chapter page : Int) :
    Bool × ReaderState :=
  if 0 ≤ chapter ∧ chapter < (r.chapters.length : Int) then
    let idx := chapter.toNat
    let r1 := { r with current_chapter := idx }
    match getCurrentChapter r1 with
    | some c =>
        let res := gotoPage c page
        (res.1, { r1 with chapters := updateAt r1.chapters idx (fun _ => res.2) })
    | none => (false, r1)
  else (false, r)

/-!
## `EpubReader.search_text` (lines 384-408)
-/

/-- One search result dictionary. -/
structure SearchHit where
  chapter_index : Nat
  chapter_title : String
  line_number : Nat
  line_content : String
  context : String
deriving DecidableEq

/-- `EpubReader._get_search_context` (lines 403-408), with the default
`context_lines = 2`: the slice `lines[max(0, i-2) : min(len, i+3)]`, each
line stripped, joined with newlines. -/
def getSearchContext (lines : List String) (line_idx : Nat) : String :=
  let start := line_idx - 2
  let stop := min lines.length (line_idx + 3)
  joinNl (((lines.drop start).take (stop - start)).map pyStrip)

/-- `EpubReader.search_text`: case-insensitive substring scan over every
line of every chapter, in order, collecting hits with 1-based line
numbers, stripped matched lines and context windows. -/
def searchText (r : ReaderState) (query : String) : List SearchHit :=
  let ql := pyLower query
  ((r.chapters.enum).map (fun p =>
    let lines := pySplitNl p.2.content
    lines.enum.filterMap (fun q =>
      if pyIn ql (pyLower q.2) then
        some { chapter_index := p.1, chapter_title := p.2.title,
               line_number := q.1 + 1, line_content := pyStrip q.2,
               context := getSearchContext lines q.1 }
      else none))).flatten

/-!
## `EpubReader._extract_chapters` and `_load_book` (lines 132-185)

`_html_to_text` and `_extract_chapter_title` delegate to the external
HTML parser (BeautifulSoup), an external collaborator; a `BookItem`
carries their outputs for one archive item: whether the item is a document
resource, the extracted plain text, the optionally found title, and the
item id.
-/

/-- One item of the opened archive, with the outputs of the external
HTML-processing stage attached. -/
structure BookItem where
  is_document : Bool
  text : String
  found_title : Option String
  item_id : String

/-- The `for item in self.book.get_items()` loop of `_extract_chapters`
(lines 171-182): keep document items whose stripped text is non-empty;
`chapter_num` counts only kept chapters; the title falls back to
`"Chapter {n+1}"` when none was found (Python `or`, so also when the
found title is the empty string). -/
def extractChaptersAux : List BookItem → Nat → List Chapter
  | [], _ => []
  | it :: rest, n =>
    if it.is_document then
      if pyStrip it.text = "" then extractChaptersAux rest n
      else
        let t := match it.found_title with
          | some s => if s = "" then "Chapter " ++ toString (n + 1) else s
          | none => "Chapter " ++ toString (n + 1)
        mkChapter t it.text it.item_id :: extractChaptersAux rest (n + 1)
    else extractChaptersAux rest n

/-- `EpubReader._extract_chapters`, starting from `chapter_num = 0`. -/
def extractChapters (items : List BookItem) : List Chapter :=
  extractChaptersAux items 0

/-- `EpubReader._load_book` (lines 132-142): `none` models
`epub.read_epub` raising (archive unreadable) — the exception is caught,
an error is printed and `False` returned with no chapters; otherwise
extraction runs and `True` is returned whatever the number of surviving
chapters. -/
def loadBook (archive : Option (List BookItem)) : Bool × List Chapter :=
  match archive with
  | none => (false, [])
  | some items => (true, extractChapters items)

/-!
## `EpubReader._build_toc` (lines 239-297)
-/

/-- One TOC dictionary entry. -/
structure TocEntry where
  title : String
  chapter_index : Nat
  level : Nat
deriving DecidableEq

/-- The duck-typed raw TOC shapes handled by `_process_toc_item`: an
object with `title`/`href` (a link), a `(section, children)` tuple whose
section may or may not carry `title`/`href`, or a plain list. -/
inductive TocNode where
  | link (title href : String)
  | group (sec : Option (String × String)) (children : List TocNode)
  | nodes (items : List TocNode)

/-- `href.split('#')[0]`: the prefix before the first fragment marker. -/
def stripFragment (href : String) : String :=
  String.mk (href.data.takeWhile (fun c => c ≠ '#'))

/-- The `for i, chapter in enumerate(self.chapters)` scan of
`_find_chapter_by_href` (lines 299-308): first chapter with a non-empty id
that is a suffix of the stripped href. -/
def findChapterAux : List Chapter → Nat → String → Option Nat
  | [], _, _ => none
  | ch :: rest, i, h =>
    if ch.chapter_id ≠ "" ∧ pyEndsWith h ch.chapter_id then some i
    else findChapterAux rest (i + 1) h

/-- `EpubReader._find_chapter_by_href`. -/
def findChapterByHref (chapters : List Chapter) (href : String) : Option Nat :=
  findChapterAux chapters 0 (stripFragment href)

mutual

/-- `EpubReader._process_toc_item` (lines 266-297): resolve one raw node
at a nesting level, dropping unresolved references; children of a tuple
node are processed one level deeper. -/
def processTocNode (chapters : List Chapter) : TocNode → Nat → List TocEntry
  | .link t h, level =>
    match findChapterByHref chapters h with
    | some i => [⟨t, i, level⟩]
    | none => []
  | .group sec children, level =>
    (match sec with
     | some (t, h) =>
       match findChapterByHref chapters h with
       | some i => [⟨t, i, level⟩]
       | none => []
     | none => []) ++ processTocList chapters children (level + 1)
  | .nodes items, level => processTocList chapters items level

/-- Processing of a raw list of TOC nodes in order, all at one level. -/
def processTocList (chapters : List Chapter) :
    List TocNode → Nat → List TocEntry
  | [], _ => []
  | n :: ns, level =>
    processTocNode chapters n level ++ processTocList chapters ns level

end

/-- The `for i, chapter in enumerate(self.chapters)` fallback loop of
`_build_toc` (lines 248-254): one level-0 entry per chapter, labeled with
the chapter's title, starting at index `i`. -/
def fallbackToc : List Chapter → Nat → List TocEntry
  | [], _ => []
  | ch :: rest, i => ⟨ch.title, i, 0⟩ :: fallbackToc rest (i + 1)

/-- `EpubReader._build_toc`: process the raw description at level 0; if
zero entries resolved, synthesize the flat per-chapter fallback. -/
def buildToc (chapters : List Chapter) (raw : TocNode) : List TocEntry :=
  let t := processTocNode chapters raw 0
  if t = [] then fallbackToc chapters 0 else t

end EpubCli

namespace EpubCli

/-!
## Helper lemmas
-/

theorem str_length_empty : ("" : String).length = 0 := rfl

theorem pyLower_empty : pyLower "" = "" := rfl

theorem listContains_nil : ∀ s : List Char, listContains [] s = true
  | [] => rfl
  | _ :: cs => by simp [listContains, listPrefixOf]

theorem pyIn_empty (s : String) : pyIn "" s = true :=
  listContains_nil s.data

theorem length_filterMap_isSome {α β : Type} (g : α → Option β) :
    ∀ l : List α, (∀ a ∈ l, (g a).isSome = true) →
      (l.filterMap g).length = l.length := by
  intro l
  induction l with
  | nil => intro _; rfl
  | cons a l ih =>
    intro h
    have ha := h a (List.mem_cons_self a l)
    cases hb : g a with
    | none => rw [hb] at ha; simp at ha
    | some b =>
      simp only [List.filterMap_cons, hb, List.length_cons]
      rw [ih (fun x hx => h x (List.mem_cons_of_mem a hx))]

theorem flatten_map_length {α β : Type} (f : α → List β) (l : List α)
    (g : α → Nat) (h : ∀ a ∈ l, (f a).length = g a) :
    ((l.map f).flatten).length = (l.map g).sum := by
  rw [List.length_flatten, List.map_map]
  congr 1
  exact List.map_congr_left (fun a ha => h a ha)

theorem paginate_ne_nil (content : String) (w h : Nat) :
    paginate content w h ≠ [] := by
  simp only [paginate]
  split <;> split <;> simp_all

theorem wrapLine_empty (w : Nat) : wrapLine "" w = [""] := by
  have hle : ("" : String).length ≤ w := by rw [str_length_empty]; exact Nat.zero_le w
  unfold wrapLine
  rw [if_pos hle]

theorem paginate_empty_content (w h : Nat) (hh : 3 ≤ h) :
    paginate "" w h = [""] := by
  have h2 : ¬ (h - 2 ≤ 0) := by omega
  have ew : ((pySplitNl "").map (fun l => wrapLine l w)).flatten = [""] := by
    rw [show pySplitNl "" = [""] from rfl, List.map_cons, List.map_nil,
      wrapLine_empty]
    simp
  have ef : List.foldl (pageStep h) ([], [], 0) [""] = ([], [""], 1) := by
    simp [pageStep, h2]
  simp [paginate, ew, ef, joinNl]

/-- C5: for every width ≥ 1 and height ≥ 3, `paginate` returns a non-empty
page list on any content, and empty content yields exactly one empty
page. -/
theorem paginate_nonempty (content : String) (w h : Nat)
    (hw : 1 ≤ w) (hh : 3 ≤ h) :
    paginate content w h ≠ [] ∧ paginate "" w h = [""] :=
  ⟨paginate_ne_nil content w h, paginate_empty_content w h hh⟩

/-- Witness for C5 at content `"hello"`, width 10, height 5. -/
theorem paginate_nonempty_witness :
    paginate "hello" 10 5 ≠ [] ∧ paginate "" 10 5 = [""] :=
  paginate_nonempty "hello" 10 5 (by decide) (by decide)

/-- C6: `paginate` is deterministic and idempotent — re-paginating a
chapter with the same `(width, height)` replaces its pages with an
identical sequence, and the pages are a function of the content alone. -/
theorem paginateChapter_idempotent (c : Chapter) (w h : Nat) :
    paginateChapter (paginateChapter c w h) w h = paginateChapter c w h ∧
    (paginateChapter c w h).pages = paginate c.content w h :=
  ⟨rfl, rfl⟩

/-- C4 counterexample: on content `"a  b"` (double space, total length 4)
at width 10, height 3, the code emits the short line verbatim while the
spec's §4.4 reference algorithm re-joins the words with a single space, so
the two paginators disagree. -/
theorem paginate_spec_mismatch :
    paginate "a  b" 10 3 = ["a  b"] ∧
    specPaginate "a  b" 10 3 = ["a b"] ∧
    paginate "a  b" 10 3 ≠ specPaginate "a  b" 10 3 := by decide

/-- C4 amended: the three concrete scenarios of the claim hold for the
code's paginator — two 10-character words at width 10 wrap to two lines; a
single 25-character word at width 10 hard-slices to lines of lengths
10, 10, 5; five short lines at height 5 split into a 3-line page and a
2-line page. -/
theorem paginate_scenarios :
    wrapLine "AAAAAAAAAA BBBBBBBBBB" 10 = ["AAAAAAAAAA", "BBBBBBBBBB"] ∧
    (wrapLine "AAAAAAAAAAAAAAAAAAAAAAAAA" 10).map String.length = [10, 10, 5] ∧
    paginate "line1\nline2\nline3\nline4\nline5" 80 5 =
      ["line1\nline2\nline3", "line4\nline5"] := by decide

end EpubCli

namespace EpubCli

/-!
## Search (C2)
-/

/-- A one-chapter reader used to exhibit the behaviour of `search_text`
on the empty query. -/
def sampleSearchReader : ReaderState :=
  ⟨[{ title := "t", content := "hello", chapter_id := "c1",
      pages := [], current_page := 0 }], 0⟩

/-- C2 counterexample: on a loaded one-chapter document, searching for the
empty string does not return the empty list — in Python the empty string
is a substring of every line, so every line is a hit. -/
theorem searchText_empty_query_ne_nil :
    searchText sampleSearchReader "" ≠ [] := by decide

/-- C2 amended: the empty query matches every line of every chapter, so
the number of hits equals the total number of content lines in the
document (and the search completes normally rather than erroring). -/
theorem searchText_empty_query_hits_every_line (r : ReaderState) :
    (searchText r "").length =
      (r.chapters.map (fun ch => (pySplitNl ch.content).length)).sum := by
  unfold searchText
  refine (flatten_map_length _ _
    (fun p => (pySplitNl p.2.content).length) ?_).trans ?_
  · intro p _
    refine (length_filterMap_isSome _ _ ?_).trans (List.enum_length)
    intro q _
    simp [pyLower_empty, pyIn_empty]
  · rw [show (fun p : Nat × Chapter => (pySplitNl p.2.content).length)
          = ((fun ch => (pySplitNl ch.content).length) ∘ Prod.snd) from rfl,
        ← List.map_map, List.enum_map_snd]

/-!
## Loading and extraction (C3, C9)
-/

/-- An archive whose only document item extracts to whitespace-only text,
so that zero chapters survive extraction. -/
def whitespaceOnlyItems : List BookItem := [⟨true, "   ", none, "a"⟩]

/-- C3 counterexample: a readable archive from which zero chapters survive
extraction is still reported by `_load_book` as a successful load — the
zero-section document is handed back with a `True` result. -/
theorem loadBook_zero_chapters_success :
    loadBook (some whitespaceOnlyItems) = (true, []) := by decide

/-- C3 amended: `_load_book` returns success whenever the archive itself
is readable, even when zero Sections survive extraction; only the
archive-level failure (modelled by `none`) is a hard failure. -/
theorem loadBook_success_despite_no_chapters (items : List BookItem)
    (hempty : extractChapters items = []) :
    (loadBook (some items)).1 = true ∧ (loadBook (some items)).2 = [] ∧
      loadBook none = (false, []) :=
  ⟨rfl, hempty, rfl⟩

/-- Witness for C3 amended at the whitespace-only archive. -/
theorem loadBook_success_despite_no_chapters_witness :
    (loadBook (some whitespaceOnlyItems)).1 = true ∧
      (loadBook (some whitespaceOnlyItems)).2 = [] ∧
      loadBook none = (false, []) :=
  loadBook_success_despite_no_chapters whitespaceOnlyItems (by decide)

theorem extractChaptersAux_strip_ne (items : List BookItem) :
    ∀ n ch, ch ∈ extractChaptersAux items n → pyStrip ch.content ≠ "" := by
  induction items with
  | nil => intro n ch h; simp [extractChaptersAux] at h
  | cons it rest ih =>
    intro n ch h
    unfold extractChaptersAux at h
    by_cases hd : it.is_document
    · rw [if_pos hd] at h
      by_cases hs : pyStrip it.text = ""
      · rw [if_pos hs] at h
        exact ih n ch h
      · rw [if_neg hs] at h
        rcases List.mem_cons.mp h with h1 | h2
        · subst h1; exact hs
        · exact ih (n + 1) ch h2
    · rw [if_neg hd] at h
      exact ih n ch h

theorem pyStrip_ne_empty_exists_nonspace (s : String) (h : pyStrip s ≠ "") :
    ∃ c ∈ s.data, pyIsSpace c = false := by
  by_contra hc
  push_neg at hc
  apply h
  have hall : ∀ c ∈ s.data, pyIsSpace c = true := by
    intro c hcm
    have := hc c hcm
    revert this
    cases pyIsSpace c <;> simp
  have h1 : s.data.dropWhile pyIsSpace = [] :=
    List.dropWhile_eq_nil_iff.mpr hall
  show String.mk (pyStripList s.data) = ""
  unfold pyStripList
  rw [h1]
  rfl

/-- C9: every chapter surviving `_extract_chapters` has raw content with
at least one non-whitespace character; whitespace-only document items are
dropped rather than kept as empty chapters. -/
theorem extractChapters_content_nonspace (items : List BookItem)
    (ch : Chapter) (h : ch ∈ extractChapters items) :
    ∃ c ∈ ch.content.data, pyIsSpace c = false :=
  pyStrip_ne_empty_exists_nonspace _ (extractChaptersAux_strip_ne items 0 ch h)

/-- An archive mixing a whitespace-only document item, a real one, and a
non-document item. -/
def mixedItems : List BookItem :=
  [⟨true, "  \n ", none, "w1"⟩, ⟨true, " hi ", some "T", "w2"⟩,
   ⟨false, "x", none, "w3"⟩]

/-- Witness for C9: in the mixed archive only the non-blank document item
survives, and its content has a non-whitespace character. -/
theorem extractChapters_content_nonspace_witness :
    mkChapter "T" " hi " "w2" ∈ extractChapters mixedItems ∧
      ∃ c ∈ (mkChapter "T" " hi " "w2").content.data, pyIsSpace c = false :=
  ⟨by decide, extractChapters_content_nonspace mixedItems _ (by decide)⟩

end EpubCli

namespace EpubCli

/-!
## Navigation lemmas
-/

theorem updateAt_get?_self : ∀ (l : List Chapter) (i : Nat)
    (f : Chapter → Chapter), (updateAt l i f).get? i = (l.get? i).map f
  | [], 0, _ => rfl
  | [], _ + 1, _ => rfl
  | _ :: _, 0, _ => rfl
  | _ :: cs, n + 1, f => updateAt_get?_self cs n f

theorem updateAt_get?_ne : ∀ (l : List Chapter) (i j : Nat)
    (f : Chapter → Chapter), j ≠ i →
    (updateAt l i f).get? j = l.get? j
  | [], _, _, _, _ => rfl
  | _ :: _, 0, 0, _, h => absurd rfl h
  | _ :: _, 0, _ + 1, _, _ => rfl
  | _ :: _, _ + 1, 0, _, _ => rfl
  | _ :: cs, i + 1, j + 1, f, h =>
    updateAt_get?_ne cs i j f (fun e => h (congrArg Nat.succ e))

theorem updateAt_const_self : ∀ (l : List Chapter) (i : Nat) (c : Chapter),
    l.get? i = some c → updateAt l i (fun _ => c) = l
  | [], _, _, h => nomatch h
  | a :: as, 0, c, h => by
    rw [show a = c from Option.some.inj h]
    rfl
  | a :: as, i + 1, c, h =>
    congrArg (a :: ·) (updateAt_const_self as i c h)

/-- C8: `goto_chapter` with an out-of-range index fails and leaves the
whole navigation state unchanged; with an in-range index it succeeds, sets
the current chapter, resets the target chapter's page to 0, and leaves
every other chapter untouched. -/
theorem gotoChapter_bounds (r : ReaderState) (i : Int) :
    (¬ (0 ≤ i ∧ i < (r.chapters.length : Int)) →
      gotoChapter r i = (false, r)) ∧
    ((0 ≤ i ∧ i < (r.chapters.length : Int)) →
      (gotoChapter r i).1 = true ∧
      (gotoChapter r i).2.current_chapter = i.toNat ∧
      (gotoChapter r i).2.chapters.get? i.toNat =
        (r.chapters.get? i.toNat).map (fun c => { c with current_page := 0 }) ∧
      (∀ j, j ≠ i.toNat →
        (gotoChapter r i).2.chapters.get? j = r.chapters.get? j)) := by
  constructor
  · intro hout
    simp [gotoChapter, hout]
  · intro hin
    have hlt : i.toNat < r.chapters.length := by omega
    obtain ⟨c, hc⟩ : ∃ c, r.chapters.get? i.toNat = some c := by
      cases hcc : r.chapters.get? i.toNat with
      | none => exact absurd (List.get?_eq_none.mp hcc) (by omega)
      | some c => exact ⟨c, rfl⟩
    have hgoto : gotoChapter r i =
        (true, { r with
                 current_chapter := i.toNat
                 chapters := updateAt r.chapters i.toNat
                   (fun c => { c with current_page := 0 }) }) := by
      simp [gotoChapter, hin, getCurrentChapter, hc]
    rw [hgoto]
    refine ⟨rfl, rfl, ?_, ?_⟩
    · exact updateAt_get?_self r.chapters i.toNat _
    · intro j hj
      exact updateAt_get?_ne r.chapters i.toNat j _ hj

/-- A two-chapter reader positioned at chapter 1, page 1 (both chapters
have two pages and stand at page 1), used to exercise navigation. -/
def sampleNavReader : ReaderState :=
  ⟨[{ title := "A", content := "a", chapter_id := "i0",
      pages := ["p0", "p1"], current_page := 1 },
    { title := "B", content := "b", chapter_id := "i1",
      pages := ["q0", "q1"], current_page := 1 }], 1⟩

/-- Witness for C8: `goto_chapter(-1)` is a failing no-op and
`goto_chapter(0)` succeeds. -/
theorem gotoChapter_bounds_witness :
    gotoChapter sampleNavReader (-1) = (false, sampleNavReader) ∧
      (gotoChapter sampleNavReader 0).1 = true :=
  ⟨(gotoChapter_bounds sampleNavReader (-1)).1 (by decide),
   ((gotoChapter_bounds sampleNavReader 0).2 (by decide)).1⟩

theorem setReadingPosition_out_of_range (r : ReaderState) (ch page : Int)
    (h : ¬ (0 ≤ ch ∧ ch < (r.chapters.length : Int))) :
    setReadingPosition r ch page = (false, r) := by
  simp [setReadingPosition, h]

theorem setReadingPosition_bad_page (r : ReaderState) (ch page : Int)
    (c : Chapter) (hin : 0 ≤ ch ∧ ch < (r.chapters.length : Int))
    (hc : r.chapters.get? ch.toNat = some c)
    (hp : ¬ (0 ≤ page ∧ page < (c.pages.length : Int))) :
    setReadingPosition r ch page =
      (false, { r with current_chapter := ch.toNat }) := by
  have hupd := updateAt_const_self r.chapters ch.toNat c hc
  have hgc : getCurrentChapter { r with current_chapter := ch.toNat } = some c :=
    hc
  have hgp : gotoPage c page = (false, c) := by
    unfold gotoPage
    rw [if_neg hp]
  unfold setReadingPosition
  rw [if_pos hin]
  dsimp only
  rw [hgc]
  dsimp only
  rw [hgp]
  dsimp only
  rw [hupd]

/-- C1 counterexample: `set_reading_position` does not clamp.  From
chapter 1 / page 1, setting an out-of-range chapter (5) leaves the
position at chapter 1 (not chapter 0 / page 0); setting chapter 0 with an
out-of-range page (99) leaves chapter 0's page at 1 (not 0). -/
theorem setReadingPosition_no_clamp :
    (setReadingPosition sampleNavReader 5 0).2 = sampleNavReader ∧
      sampleNavReader.current_chapter = 1 ∧
      ((setReadingPosition sampleNavReader 0 99).2.chapters.get? 0).map
        Chapter.current_page = some 1 := by decide

/-- C1 corrected: `set_reading_position` rejects bad positions with a
`false` return instead of clamping — an out-of-range chapter leaves the
state entirely unchanged, and an in-range chapter with an out-of-range
page leaves every chapter (hence the page) unchanged while the current
chapter pointer has been moved; no crash is propagated in either case. -/
theorem setReadingPosition_rejects (r : ReaderState) (ch page : Int) :
    (¬ (0 ≤ ch ∧ ch < (r.chapters.length : Int)) →
      setReadingPosition r ch page = (false, r)) ∧
    (∀ c, (0 ≤ ch ∧ ch < (r.chapters.length : Int)) →
      r.chapters.get? ch.toNat = some c →
      ¬ (0 ≤ page ∧ page < (c.pages.length : Int)) →
      setReadingPosition r ch page =
        (false, { r with current_chapter := ch.toNat })) :=
  ⟨fun h => setReadingPosition_out_of_range r ch page h,
   fun c hin hc hp => setReadingPosition_bad_page r ch page c hin hc hp⟩

/-- Witness for C1 corrected at chapter 5 (out of range) and at chapter 0
with page 99 (page out of range). -/
theorem setReadingPosition_rejects_witness :
    setReadingPosition sampleNavReader 5 0 = (false, sampleNavReader) ∧
      setReadingPosition sampleNavReader 0 99 =
        (false, { sampleNavReader with current_chapter := 0 }) :=
  ⟨(setReadingPosition_rejects sampleNavReader 5 0).1 (by decide),
   (setReadingPosition_rejects sampleNavReader 0 99).2
     { title := "A", content := "a", chapter_id := "i0",
       pages := ["p0", "p1"], current_page := 1 }
     (by decide) (by decide) (by decide)⟩

/-- C10: when the chapter is in range but the page is not,
`set_reading_position` returns failure, yet the mutation is not atomic:
the current-chapter pointer has been updated to the requested chapter
while the chapter list (hence every chapter's current page) is
unchanged. -/
theorem setReadingPosition_not_atomic (r : ReaderState) (ch page : Int)
    (c : Chapter) (hin : 0 ≤ ch ∧ ch < (r.chapters.length : Int))
    (hc : r.chapters.get? ch.toNat = some c)
    (hp : ¬ (0 ≤ page ∧ page < (c.pages.length : Int))) :
    (setReadingPosition r ch page).1 = false ∧
      (setReadingPosition r ch page).2.current_chapter = ch.toNat ∧
      (setReadingPosition r ch page).2.chapters = r.chapters := by
  rw [setReadingPosition_bad_page r ch page c hin hc hp]
  exact ⟨rfl, rfl, rfl⟩

/-- Witness for C10: from chapter 1, `set_reading_position(0, 99)` fails
but has already moved the chapter pointer to 0, pages untouched. -/
theorem setReadingPosition_not_atomic_witness :
    (setReadingPosition sampleNavReader 0 99).1 = false ∧
      (setReadingPosition sampleNavReader 0 99).2.current_chapter = 0 ∧
      (setReadingPosition sampleNavReader 0 99).2.chapters =
        sampleNavReader.chapters :=
  setReadingPosition_not_atomic sampleNavReader 0 99
    { title := "A", content := "a", chapter_id := "i0",
      pages := ["p0", "p1"], current_page := 1 }
    (by decide) (by decide) (by decide)

end EpubCli

namespace EpubCli

/-!
## TOC fallback (C7)
-/

theorem fallbackToc_length : ∀ (chs : List Chapter) (k : Nat),
    (fallbackToc chs k).length = chs.length
  | [], _ => rfl
  | _ :: rest, k => congrArg Nat.succ (fallbackToc_length rest (k + 1))

theorem fallbackToc_level : ∀ (chs : List Chapter) (k : Nat) (e : TocEntry),
    e ∈ fallbackToc chs k → e.level = 0
  | [], _, _, h => nomatch h
  | ch :: rest, k, e, h => by
    rcases List.mem_cons.mp h with h1 | h2
    · rw [h1]
    · exact fallbackToc_level rest (k + 1) e h2

theorem fallbackToc_titles : ∀ (chs : List Chapter) (k : Nat),
    (fallbackToc chs k).map TocEntry.title = chs.map Chapter.title
  | [], _ => rfl
  | ch :: rest, k =>
    congrArg (ch.title :: ·) (fallbackToc_titles rest (k + 1))

theorem fallbackToc_index : ∀ (chs : List Chapter) (k i : Nat) (e : TocEntry),
    (fallbackToc chs k).get? i = some e → e.chapter_index = k + i
  | [], _, _, _, h => nomatch h
  | ch :: rest, k, 0, e, h => by
    have he : (⟨ch.title, k, 0⟩ : TocEntry) = e := Option.some.inj h
    rw [← he]
    simp
  | ch :: rest, k, i + 1, e, h => by
    have := fallbackToc_index rest (k + 1) i e h
    omega

/-- C7: when zero raw TOC nodes resolve (in particular when the raw
description is empty), the built TOC is the flat fallback: one entry per
chapter, in chapter order, each at level 0, labeled with the chapter's
title, so the TOC length equals the chapter count. -/
theorem buildToc_fallback (chapters : List Chapter) (raw : TocNode)
    (hres : processTocNode chapters raw 0 = []) :
    (buildToc chapters raw).length = chapters.length ∧
      (∀ e ∈ buildToc chapters raw, e.level = 0) ∧
      (buildToc chapters raw).map TocEntry.title =
        chapters.map Chapter.title ∧
      (∀ i e, (buildToc chapters raw).get? i = some e →
        e.chapter_index = i) := by
  have hb : buildToc chapters raw = fallbackToc chapters 0 := by
    simp [buildToc, hres]
  rw [hb]
  refine ⟨fallbackToc_length chapters 0, ?_, fallbackToc_titles chapters 0, ?_⟩
  · intro e he
    exact fallbackToc_level chapters 0 e he
  · intro i e h
    have := fallbackToc_index chapters 0 i e h
    omega

/-- Two chapters used to exercise the TOC fallback. -/
def twoChapters : List Chapter :=
  [mkChapter "One" "x" "id1", mkChapter "Two" "y" "id2"]

/-- Witness for C7: a raw TOC whose only link resolves to no chapter
produces zero entries, so the fallback yields one level-0 entry per
chapter. -/
theorem buildToc_fallback_witness :
    processTocNode twoChapters (.nodes [.link "Intro" "nowhere.html"]) 0 = [] ∧
      (buildToc twoChapters
        (.nodes [.link "Intro" "nowhere.html"])).length = twoChapters.length :=
  ⟨rfl,
   (buildToc_fallback twoChapters (.nodes [.link "Intro" "nowhere.html"])
     rfl).1⟩

end EpubCli
